import Mathlib

/-!
A shallow embedding of the TCP transport layer of libmodbus
(src/modbus-tcp.c) together with theorems about its behaviour.

Modelling conventions:
- C byte buffers that are written at fixed offsets are modelled as total
  functions Nat → Nat (offset to byte value); a store into a uint8_t slot
  is modelled by writing the value reduced mod 256.
- Byte streams that are accumulated during message reassembly are
  modelled as List Nat.
- C strings (char arrays filled by strlcpy) are modelled as List Char.
- errno values are an inductive type; a C function returning 0 / -1 with
  errno is modelled as Except Errno.
- The socket environment (select and recv outcomes) is modelled as a
  list of events consumed one per loop iteration; side effects performed
  by the recovery policy (sleep, flush, close, connect) and the trace
  callback are recorded as an action trace.
- The pointer-based backend data block (modbus_tcp_t, reached through
  ctx->backend_data) is modelled as an index into an explicit heap,
  a List modbus_tcp_t, so that aliasing and independence of clones can
  be stated.
-/

/-- Errno values used by src/modbus-tcp.c.  EMBBADDATA is the libmodbus
too-much-data / data-integrity error.  The catch-all constructor stands
for any other platform errno value. -/
inductive Errno where
  | EINVAL
  | ETIMEDOUT
  | ECONNRESET
  | ECONNREFUSED
  | EBADF
  | EMBBADDATA
  | otherErr (n : Nat)
deriving DecidableEq

/-- Message direction, msg_type_t in the source: a server waits for an
indication, a client waits for a confirmation. -/
inductive MsgType where
  | indication
  | confirmation
deriving DecidableEq

/-- The _step_t state of the reassembly state machine
(_STEP_FUNCTION, _STEP_META, _STEP_DATA). -/
inductive _step_t where
  | function
  | meta
  | data
deriving DecidableEq

/-- One socket-environment event consumed by one iteration of the
receive loop: either the readiness wait fails with an errno (a select
timeout surfaces as selectErr ETIMEDOUT, as in _modbus_tcp_select_s),
or recv succeeds returning a chunk of bytes (the empty chunk is a
zero-length read, i.e. the peer closed), or recv fails with an errno. -/
inductive Event where
  | selectErr (e : Errno)
  | recvOk (chunk : List Nat)
  | recvErr (e : Errno)
deriving DecidableEq

/-- Side effects performed by the receive path, recorded as a trace:
_sleep_response_timeout, modbus_flush, modbus_close, modbus_connect and
the trace callback invocation. -/
inductive SideEffect where
  | sleepResponseTimeout
  | flush
  | close
  | connect
  | trace
deriving DecidableEq

/-- Constant fields of the modbus_backend_t capability table. -/
structure modbus_backend_t where
  header_length : Nat
  checksum_length : Nat
  max_adu_length : Nat
deriving DecidableEq

/-- The TCP backend constants: _MODBUS_TCP_HEADER_LENGTH = 7,
_MODBUS_TCP_CHECKSUM_LENGTH = 0, MODBUS_TCP_MAX_ADU_LENGTH = 260
(MBAP header of 7 bytes per the wire-format table, no checksum trailer,
standard maximum TCP ADU). -/
def _modbus_tcp_backend : modbus_backend_t :=
  ⟨7, 0, 260⟩

/-- The TCP PI backend shares every constant with the TCP backend
(lines 898-941 of the source differ only in connect). -/
def _modbus_tcp_pi_backend : modbus_backend_t :=
  ⟨7, 0, 260⟩

/-- The connection context modbus_t, restricted to the fields read by
the code under verification: socket handle, slave id, the LINK bit of
error_recovery, whether a trace callback is installed, the backend
constants, and the pointer (heap index) to the backend data block. -/
structure modbus_t where
  s : Int
  slave : Int
  error_recovery_link : Bool
  traceCallback : Bool
  backend : modbus_backend_t
  backend_data : Nat
deriving DecidableEq

/-- The TCP transport parameters modbus_tcp_t: the 16-bit transaction
id counter, the port and the IPv4 address string. -/
structure modbus_tcp_t where
  t_id : Nat
  port : Int
  ip : List Char
deriving DecidableEq

instance : Inhabited modbus_tcp_t := ⟨⟨0, 0, []⟩⟩

/-- The TCP PI transport parameters modbus_tcp_pi_t: transaction id
counter, node and service strings. -/
structure modbus_tcp_pi_t where
  t_id : Nat
  node : List Char
  service : List Char
deriving DecidableEq

/-- _modbus_set_slave (lines 82-97): accept 0..247 and the sentinel
MODBUS_TCP_SLAVE = 0xFF, reject anything else with EINVAL. -/
def _modbus_set_slave (ctx : modbus_t) (slave : Int) : Except Errno modbus_t :=
  if 0 ≤ slave ∧ slave ≤ 247 then
    Except.ok { ctx with slave := slave }
  else if slave = 0xFF then
    Except.ok { ctx with slave := slave }
  else
    Except.error Errno.EINVAL

/-- The transaction id update performed at the top of
_modbus_tcp_build_request_basis (lines 132-135): increment while below
UINT16_MAX, otherwise wrap to zero. -/
def nextTid (t : Nat) : Nat :=
  if t < 65535 then t + 1 else 0

/-- _modbus_tcp_build_request_basis (lines 125-154): bump the
transaction id, write it big-endian at offsets 0-1, write the zero
protocol id at 2-3, leave 4-5 (the length field) untouched, write the
slave id, function code, address and count at 6-11, and return
_MODBUS_TCP_PRESET_REQ_LENGTH = 12.  The result is the updated
transport-parameter block, the updated buffer and the return value. -/
def _modbus_tcp_build_request_basis (ctx_tcp : modbus_tcp_t) (slave : Int)
    (function addr nb : Nat) (req : Nat → Nat) :
    modbus_tcp_t × (Nat → Nat) × Nat :=
  let t := nextTid ctx_tcp.t_id
  let req := Function.update req 0 (t / 256 % 256)
  let req := Function.update req 1 (t % 256)
  let req := Function.update req 2 0
  let req := Function.update req 3 0
  let req := Function.update req 6 (slave.emod 256).toNat
  let req := Function.update req 7 (function % 256)
  let req := Function.update req 8 (addr / 256 % 256)
  let req := Function.update req 9 (addr % 256)
  let req := Function.update req 10 (nb / 256 % 256)
  let req := Function.update req 11 (nb % 256)
  ({ ctx_tcp with t_id := t }, req, 12)

/-- _modbus_tcp_build_request_basis acting through the heap: the block
at index p (reached through ctx->backend_data in C) is read, updated
and stored back; every other heap cell is untouched. -/
def buildRequestOnHeap (h : List modbus_tcp_t) (p : Nat) (slave : Int)
    (function addr nb : Nat) (req : Nat → Nat) :
    List modbus_tcp_t × (Nat → Nat) × Nat :=
  let r := _modbus_tcp_build_request_basis (h.getD p ⟨0, 0, []⟩) slave function addr nb req
  (h.set p r.1, r.2.1, r.2.2)

/-- _modbus_tcp_send_msg_pre (lines 185-194): write req_length - 6
big-endian into bytes 4 and 5 and return req_length. -/
def _modbus_tcp_send_msg_pre (req : Nat → Nat) (req_length : Nat) :
    (Nat → Nat) × Nat :=
  let mbap_length := req_length - 6
  let req := Function.update req 4 (mbap_length / 256 % 256)
  let req := Function.update req 5 (mbap_length % 256)
  (req, req_length)

/-- _modbus_tcp_pre_check_confirmation (lines 357-371): compare the two
transaction-id bytes of request and response; on mismatch fail with
EMBBADDATA, otherwise return 0 (modelled as ok). -/
def _modbus_tcp_pre_check_confirmation (req rsp : Nat → Nat)
    (rsp_length : Nat) : Except Errno Unit :=
  if req 0 ≠ rsp 0 ∨ req 1 ≠ rsp 1 then
    Except.error Errno.EMBBADDATA
  else
    Except.ok ()

/-- Outcome of one receive call: a fully reassembled message, a failure
with an errno, or a run that exhausted the modelled event stream while
bytes were still outstanding (the C code would keep blocking). -/
inductive RcvResult where
  | ok (msg : List Nat)
  | err (e : Errno)
  | starved
deriving DecidableEq

/-- Full outcome of a receive call: the result, the trace of side
effects performed, and the events of the socket environment not yet
consumed when the call returned. -/
structure RcvOut where
  result : RcvResult
  effects : List SideEffect
  remaining : List Event
deriving DecidableEq

/-- The recovery block run when the readiness wait fails
(lines 253-268): with link recovery, a timeout leads to
_sleep_response_timeout followed by modbus_flush, a bad descriptor to
modbus_close followed by modbus_connect; the original errno is restored
afterwards. -/
def recoverySelect (ctx : modbus_t) (e : Errno) : List SideEffect :=
  if ctx.error_recovery_link then
    if e = Errno.ETIMEDOUT then
      [SideEffect.sleepResponseTimeout, SideEffect.flush]
    else if e = Errno.EBADF then
      [SideEffect.close, SideEffect.connect]
    else
      []
  else
    []

/-- The recovery block run when the read fails (lines 276-288): with
link recovery and an errno of ECONNRESET, ECONNREFUSED or EBADF, close
then reconnect; the original errno is restored afterwards. -/
def recoveryRead (ctx : modbus_t) (e : Errno) : List SideEffect :=
  if ctx.error_recovery_link ∧
      (e = Errno.ECONNRESET ∨ e = Errno.ECONNREFUSED ∨ e = Errno.EBADF) then
    [SideEffect.close, SideEffect.connect]
  else
    []

/-- The _STEP_META arm of the switch in _modbus_tcp_receive_msg
(lines 313-322): compute the remaining data length; if the running
total would exceed the maximum ADU length fail with EMBBADDATA,
otherwise continue to _STEP_DATA. -/
def metaStepCase (dataLen : List Nat → MsgType → Nat) (ctx : modbus_t)
    (msg_type : MsgType) (msg : List Nat) : Except Errno (_step_t × Nat) :=
  if msg.length + dataLen msg msg_type > ctx.backend.max_adu_length then
    Except.error Errno.EMBBADDATA
  else
    Except.ok (_step_t.data, dataLen msg msg_type)

/-- The switch statement of _modbus_tcp_receive_msg (lines 302-325),
run whenever the outstanding byte count of the current step reaches
zero.  The parameters metaLen and dataLen stand for the collaborator
functions compute_meta_length_after_function and
compute_data_length_after_meta (defined in modbus.c, outside this
file of the repository).  In _STEP_FUNCTION a zero meta length falls
through to the _STEP_META arm, exactly as in the C switch. -/
def stepSwitch (metaLen : Nat → MsgType → Nat)
    (dataLen : List Nat → MsgType → Nat) (ctx : modbus_t)
    (msg_type : MsgType) (msg : List Nat) :
    _step_t → Except Errno (_step_t × Nat)
  | _step_t.function =>
    if metaLen (msg.getD ctx.backend.header_length 0) msg_type ≠ 0 then
      Except.ok (_step_t.meta, metaLen (msg.getD ctx.backend.header_length 0) msg_type)
    else
      metaStepCase dataLen ctx msg_type msg
  | _step_t.meta => metaStepCase dataLen ctx msg_type msg
  | _step_t.data => Except.ok (_step_t.data, 0)

/-- The while loop of _modbus_tcp_receive_msg (lines 251-336),
followed by the trace-callback invocation and the TCP integrity check
(an identity, line 352-355).  One iteration consumes one event: a
readiness-wait failure, a read failure, or a successful read of a chunk
(of which at most length_to_read bytes are taken, as recv never returns
more than requested; an empty chunk is a zero-length read and is turned
into an ECONNRESET read failure, lines 271-274). -/
def receiveLoop (metaLen : Nat → MsgType → Nat)
    (dataLen : List Nat → MsgType → Nat) (ctx : modbus_t)
    (msg_type : MsgType) :
    List Event → List Nat → Nat → _step_t → List SideEffect → RcvOut
  | events, msg, length_to_read, step, effects =>
    if length_to_read = 0 then
      ⟨RcvResult.ok msg,
        effects ++ (if ctx.traceCallback then [SideEffect.trace] else []),
        events⟩
    else
      match events with
      | [] => ⟨RcvResult.starved, effects, []⟩
      | Event.selectErr e :: rest =>
        ⟨RcvResult.err e, effects ++ recoverySelect ctx e, rest⟩
      | Event.recvErr e :: rest =>
        ⟨RcvResult.err e, effects ++ recoveryRead ctx e, rest⟩
      | Event.recvOk chunk :: rest =>
        if chunk = [] then
          ⟨RcvResult.err Errno.ECONNRESET,
            effects ++ recoveryRead ctx Errno.ECONNRESET, rest⟩
        else
          if length_to_read - (chunk.take length_to_read).length = 0 then
            match stepSwitch metaLen dataLen ctx msg_type
                (msg ++ chunk.take length_to_read) step with
            | Except.error e => ⟨RcvResult.err e, effects, rest⟩
            | Except.ok (step2, ltr3) =>
              receiveLoop metaLen dataLen ctx msg_type rest
                (msg ++ chunk.take length_to_read) ltr3 step2 effects
          else
            receiveLoop metaLen dataLen ctx msg_type rest
              (msg ++ chunk.take length_to_read)
              (length_to_read - (chunk.take length_to_read).length) step effects

/-- _modbus_tcp_receive_msg (lines 213-346): start in _STEP_FUNCTION
with header_length + 1 bytes outstanding, an empty message and no side
effects performed. -/
def _modbus_tcp_receive_msg (metaLen : Nat → MsgType → Nat)
    (dataLen : List Nat → MsgType → Nat) (ctx : modbus_t)
    (msg_type : MsgType) (events : List Event) : RcvOut :=
  receiveLoop metaLen dataLen ctx msg_type events []
    (ctx.backend.header_length + 1) _step_t.function []

/-- modbus_tcp_receive (lines 818-834): reject the descriptor value 0
with EINVAL before any I/O; otherwise store the descriptor into the
context and run message reassembly waiting for an indication.  The
returned context is the (possibly updated) context. -/
def modbus_tcp_receive (metaLen : Nat → MsgType → Nat)
    (dataLen : List Nat → MsgType → Nat) (ctx : modbus_t) (s : Int)
    (events : List Event) : modbus_t × RcvOut :=
  if s = 0 then
    (ctx, ⟨RcvResult.err Errno.EINVAL, [], events⟩)
  else
    ({ ctx with s := s },
      _modbus_tcp_receive_msg metaLen dataLen { ctx with s := s }
        MsgType.indication events)

/-- Modelled from the spec: _modbus_init_common lives in modbus.c, which
is not part of this repository slice.  Per the spec the context starts
disconnected (socket handle absent, modelled as -1), with no recovery
flag, no trace callback, and a slave id that every TCP constructor
overwrites. -/
def _modbus_init_common : modbus_t :=
  ⟨-1, -1, false, false, _modbus_tcp_backend, 0⟩

/-- modbus_new_tcp (lines 943-994): validate the IP string through the
strlcpy return value (the length of the source string): an empty string
or one whose length meets or exceeds the 16-byte destination is
rejected with EINVAL and no context is returned; otherwise the context
(slave preset to MODBUS_TCP_SLAVE = 0xFF) is returned together with a
transport-parameter block holding a zero transaction id, the port and
the ip. -/
def modbus_new_tcp (ip : List Char) (port : Int) :
    Except Errno (modbus_t × modbus_tcp_t) :=
  if ip.length = 0 then
    Except.error Errno.EINVAL
  else if 16 ≤ ip.length then
    Except.error Errno.EINVAL
  else
    Except.ok ({ _modbus_init_common with
                  slave := 0xFF, backend := _modbus_tcp_backend },
      ⟨0, port, ip⟩)

/-- modbus_new_tcp_pi (lines 997-1049): the same validation for the
node and service strings against the bounds _MODBUS_TCP_PI_NODE_LENGTH
and _MODBUS_TCP_PI_SERVICE_LENGTH.  The numeric values of those two
constants live in modbus-tcp-private.h, which is not part of this
repository slice, so they are parameters here. -/
def modbus_new_tcp_pi (nodeLen serviceLen : Nat) (node service : List Char) :
    Except Errno (modbus_t × modbus_tcp_pi_t) :=
  if node.length = 0 then
    Except.error Errno.EINVAL
  else if nodeLen ≤ node.length then
    Except.error Errno.EINVAL
  else if service.length = 0 then
    Except.error Errno.EINVAL
  else if serviceLen ≤ service.length then
    Except.error Errno.EINVAL
  else
    Except.ok ({ _modbus_init_common with
                  slave := 0xFF, backend := _modbus_tcp_pi_backend },
      ⟨0, node, service⟩)

/-- modbus_clone_tcp (lines 836-843): duplicate the context by value
(memcpy of modbus_t) and give the copy a freshly allocated duplicate of
the transport-parameter block (malloc plus memcpy of modbus_tcp_t).
Allocation is modelled by appending the copied block to the heap; the
fresh pointer is the previous heap size. -/
def modbus_clone_tcp (h : List modbus_tcp_t) (ctx : modbus_t) :
    List modbus_tcp_t × modbus_t :=
  (h ++ [h.getD ctx.backend_data ⟨0, 0, []⟩],
    { ctx with backend_data := h.length })

/-- C4: pre-check-confirmation fails with EMBBADDATA exactly when the
transaction-id bytes at offsets 0 and 1 of request and response differ,
and returns success exactly when they agree, independently of every
other byte of either buffer. -/
theorem C4_pre_check_confirmation (req rsp : Nat → Nat) (rsp_length : Nat) :
    (_modbus_tcp_pre_check_confirmation req rsp rsp_length =
        Except.error Errno.EMBBADDATA ↔ (req 0 ≠ rsp 0 ∨ req 1 ≠ rsp 1)) ∧
    (_modbus_tcp_pre_check_confirmation req rsp rsp_length =
        Except.ok () ↔ (req 0 = rsp 0 ∧ req 1 = rsp 1)) := by
  unfold _modbus_tcp_pre_check_confirmation
  by_cases h : req 0 ≠ rsp 0 ∨ req 1 ≠ rsp 1
  · simp [h]
    tauto
  · simp [h]
    push_neg at h
    exact h

/-- C5: the pre-send length patch writes req_length - 6 big-endian into
bytes 4 and 5, leaves every other byte unchanged, returns req_length,
and is idempotent: any positive number of applications with the same
req_length equals one application. -/
theorem C5_send_msg_pre (req : Nat → Nat) (req_length : Nat)
    (h6 : 6 ≤ req_length) (hsz : req_length - 6 < 65536) :
    ((_modbus_tcp_send_msg_pre req req_length).1 4) * 256 +
        ((_modbus_tcp_send_msg_pre req req_length).1 5) = req_length - 6 ∧
    (∀ i, i ≠ 4 → i ≠ 5 →
        (_modbus_tcp_send_msg_pre req req_length).1 i = req i) ∧
    (_modbus_tcp_send_msg_pre req req_length).2 = req_length ∧
    (∀ n, (fun r => (_modbus_tcp_send_msg_pre r req_length).1)^[n + 1] req
        = (_modbus_tcp_send_msg_pre req req_length).1) := by
  have hpatch : ∀ (r : Nat → Nat),
      (_modbus_tcp_send_msg_pre r req_length).1 =
        Function.update (Function.update r 4 ((req_length - 6) / 256 % 256)) 5
          ((req_length - 6) % 256) := by
    intro r
    rfl
  refine ⟨?_, ?_, rfl, ?_⟩
  · rw [hpatch]
    simp only [Function.update_apply]
    norm_num
    omega
  · intro i hi4 hi5
    rw [hpatch]
    simp [Function.update_apply, hi4, hi5]
  · have hidem : ∀ (r : Nat → Nat),
        (_modbus_tcp_send_msg_pre (_modbus_tcp_send_msg_pre r req_length).1
            req_length).1 = (_modbus_tcp_send_msg_pre r req_length).1 := by
      intro r
      simp only [hpatch]
      funext i
      by_cases h5 : i = 5
      · simp [Function.update_apply, h5]
      · by_cases h4 : i = 4
        · simp [Function.update_apply, h4, h5]
        · simp [Function.update_apply, h4, h5]
    intro n
    induction n with
    | zero => simp
    | succ k ih =>
      rw [Function.iterate_succ_apply, Function.iterate_succ_apply] at *
      calc (fun r => (_modbus_tcp_send_msg_pre r req_length).1)^[k]
              ((fun r => (_modbus_tcp_send_msg_pre r req_length).1)
                ((_modbus_tcp_send_msg_pre req req_length).1))
          = (fun r => (_modbus_tcp_send_msg_pre r req_length).1)^[k]
              ((_modbus_tcp_send_msg_pre req req_length).1) := by
            simp only [hidem]
        _ = (_modbus_tcp_send_msg_pre req req_length).1 := by
            simpa using ih

/-- C5 witness: the theorem applied at a concrete buffer and length. -/
theorem C5_send_msg_pre_witness :
    ((_modbus_tcp_send_msg_pre (fun _ => 0) 12).1 4) * 256 +
        ((_modbus_tcp_send_msg_pre (fun _ => 0) 12).1 5) = 12 - 6 ∧
    (_modbus_tcp_send_msg_pre (fun _ => 0) 12).1 7 = 0 ∧
    (_modbus_tcp_send_msg_pre (fun _ => 0) 12).2 = 12 ∧
    (fun r => (_modbus_tcp_send_msg_pre r 12).1)^[3] (fun _ => 0)
        = (_modbus_tcp_send_msg_pre (fun _ => 0) 12).1 := by
  have h := C5_send_msg_pre (fun _ => 0) 12 (by decide) (by decide)
  exact ⟨h.1, h.2.1 7 (by decide) (by decide), h.2.2.1, h.2.2.2 2⟩

/-- Inversion for the _STEP_META arm: a successful transition always
enters _STEP_DATA and its outstanding byte count keeps the running
total within the maximum ADU length. -/
theorem metaStepCase_ok_inv (dataLen : List Nat → MsgType → Nat)
    (ctx : modbus_t) (msg_type : MsgType) (msg : List Nat)
    (step2 : _step_t) (ltr3 : Nat)
    (h : metaStepCase dataLen ctx msg_type msg = Except.ok (step2, ltr3)) :
    step2 = _step_t.data ∧ msg.length + ltr3 ≤ ctx.backend.max_adu_length := by
  unfold metaStepCase at h
  by_cases hgt : msg.length + dataLen msg msg_type > ctx.backend.max_adu_length
  · rw [if_pos hgt] at h
    exact absurd h (by simp)
  · rw [if_neg hgt] at h
    simp only [Except.ok.injEq, Prod.mk.injEq] at h
    obtain ⟨hs, hl⟩ := h
    subst hs
    subst hl
    exact ⟨rfl, by omega⟩

/-- Inversion for the whole switch: a successful transition either
enters _STEP_META with a nonzero outstanding count, or enters
_STEP_DATA with the running total bounded by the maximum ADU length
(except for the trivial _STEP_DATA self-transition with zero
outstanding bytes). -/
theorem stepSwitch_ok_inv (metaLen : Nat → MsgType → Nat)
    (dataLen : List Nat → MsgType → Nat) (ctx : modbus_t)
    (msg_type : MsgType) (msg : List Nat) (step : _step_t)
    (step2 : _step_t) (ltr3 : Nat)
    (h : stepSwitch metaLen dataLen ctx msg_type msg step = Except.ok (step2, ltr3)) :
    (ltr3 = 0 → step2 = _step_t.data) ∧
    (step2 = _step_t.data →
      msg.length + ltr3 ≤ ctx.backend.max_adu_length ∨
        (step = _step_t.data ∧ ltr3 = 0)) := by
  cases step with
  | function =>
    unfold stepSwitch at h
    by_cases hm : metaLen (msg.getD ctx.backend.header_length 0) msg_type = 0
    · rw [if_neg (not_not_intro hm)] at h
      obtain ⟨hs, hb⟩ := metaStepCase_ok_inv dataLen ctx msg_type msg step2 ltr3 h
      exact ⟨fun _ => hs, fun _ => Or.inl hb⟩
    · rw [if_pos hm] at h
      simp only [Except.ok.injEq, Prod.mk.injEq] at h
      obtain ⟨hs, hl⟩ := h
      subst hs
      subst hl
      constructor
      · intro h0
        exact absurd h0 hm
      · intro hd
        exact absurd hd (by decide)
  | meta =>
    unfold stepSwitch at h
    obtain ⟨hs, hb⟩ := metaStepCase_ok_inv dataLen ctx msg_type msg step2 ltr3 h
    exact ⟨fun _ => hs, fun _ => Or.inl hb⟩
  | data =>
    unfold stepSwitch at h
    simp only [Except.ok.injEq, Prod.mk.injEq] at h
    obtain ⟨hs, hl⟩ := h
    subst hs
    subst hl
    exact ⟨fun _ => rfl, fun _ => Or.inr ⟨rfl, rfl⟩⟩

/-- When no bytes are outstanding the receive loop terminates at once,
invoking the trace callback if one is installed and running the TCP
integrity check (the identity on the message length). -/
theorem receiveLoop_zero (metaLen : Nat → MsgType → Nat)
    (dataLen : List Nat → MsgType → Nat) (ctx : modbus_t)
    (msg_type : MsgType) (events : List Event) (msg : List Nat)
    (step : _step_t) (effects : List SideEffect) :
    receiveLoop metaLen dataLen ctx msg_type events msg 0 step effects
      = ⟨RcvResult.ok msg,
          effects ++ (if ctx.traceCallback then [SideEffect.trace] else []),
          events⟩ := by
  rcases events with _ | ⟨e, rest⟩
  · rw [receiveLoop, if_pos rfl]
  · cases e <;> rw [receiveLoop, if_pos rfl]

/-- Loop invariant of the receive loop: once the machine is in
_STEP_DATA the accumulated length plus the outstanding bytes stay
within the maximum ADU length, and the loop only terminates
successfully out of _STEP_DATA; hence every successfully reassembled
message respects the bound. -/
theorem receiveLoop_ok_le (metaLen : Nat → MsgType → Nat)
    (dataLen : List Nat → MsgType → Nat) (ctx : modbus_t)
    (msg_type : MsgType) :
    ∀ (events : List Event) (msg : List Nat) (ltr : Nat) (step : _step_t)
      (effects : List SideEffect) (m : List Nat) (eff2 : List SideEffect)
      (rem : List Event),
      (ltr = 0 → step = _step_t.data) →
      (step = _step_t.data → msg.length + ltr ≤ ctx.backend.max_adu_length) →
      receiveLoop metaLen dataLen ctx msg_type events msg ltr step effects
        = ⟨RcvResult.ok m, eff2, rem⟩ →
      m.length ≤ ctx.backend.max_adu_length := by
  intro events
  induction events with
  | nil =>
    intro msg ltr step effects m eff2 rem h1 h2 hrun
    by_cases h0 : ltr = 0
    · subst h0
      rw [receiveLoop_zero] at hrun
      simp only [RcvOut.mk.injEq, RcvResult.ok.injEq] at hrun
      obtain ⟨hm, -, -⟩ := hrun
      have hb := h2 (h1 rfl)
      subst hm
      omega
    · rw [receiveLoop] at hrun
      rw [if_neg h0] at hrun
      simp at hrun
  | cons e rest ih =>
    intro msg ltr step effects m eff2 rem h1 h2 hrun
    by_cases h0 : ltr = 0
    · subst h0
      rw [receiveLoop_zero] at hrun
      simp only [RcvOut.mk.injEq, RcvResult.ok.injEq] at hrun
      obtain ⟨hm, -, -⟩ := hrun
      have hb := h2 (h1 rfl)
      subst hm
      omega
    · cases e with
      | selectErr er =>
        rw [receiveLoop] at hrun
        rw [if_neg h0] at hrun
        simp at hrun
      | recvErr er =>
        rw [receiveLoop] at hrun
        rw [if_neg h0] at hrun
        simp at hrun
      | recvOk chunk =>
        rw [receiveLoop] at hrun
        rw [if_neg h0] at hrun
        by_cases hc : chunk = []
        · rw [if_pos hc] at hrun
          simp at hrun
        · rw [if_neg hc] at hrun
          have hdl : (chunk.take ltr).length ≤ ltr := by
            rw [List.length_take]
            exact Nat.min_le_left ltr chunk.length
          by_cases hl2 : ltr - (chunk.take ltr).length = 0
          · rw [if_pos hl2] at hrun
            cases hss : stepSwitch metaLen dataLen ctx msg_type
                (msg ++ chunk.take ltr) step with
            | error er =>
              rw [hss] at hrun
              simp at hrun
            | ok pr =>
              obtain ⟨step2, ltr3⟩ := pr
              rw [hss] at hrun
              have hrun2 : receiveLoop metaLen dataLen ctx msg_type rest
                  (msg ++ chunk.take ltr) ltr3 step2 effects
                  = ⟨RcvResult.ok m, eff2, rem⟩ := hrun
              have hinv := stepSwitch_ok_inv metaLen dataLen ctx msg_type
                (msg ++ chunk.take ltr) step step2 ltr3 hss
              refine ih (msg ++ chunk.take ltr) ltr3 step2 effects m eff2 rem
                hinv.1 ?_ hrun2
              intro hd2
              rcases hinv.2 hd2 with hle | ⟨hsd, hl3⟩
              · exact hle
              · have hb := h2 hsd
                have hdl2 : (chunk.take ltr).length = ltr := by omega
                rw [List.length_append, hdl2, hl3]
                omega
          · rw [if_neg hl2] at hrun
            refine ih (msg ++ chunk.take ltr) (ltr - (chunk.take ltr).length)
              step effects m eff2 rem ?_ ?_ hrun
            · intro hzero
              exact absurd hzero hl2
            · intro hd
              have hb := h2 hd
              rw [List.length_append]
              omega
/-- C2: if after the metadata step the already-consumed byte count plus
the declared remaining data length would exceed the maximum ADU length,
the step transition fails with EMBBADDATA (first conjunct: this covers
both the _STEP_META arm and the zero-meta fall-through from
_STEP_FUNCTION); the receive loop surfaces such a failure immediately,
consuming no further event — hence no further bytes are read (second
conjunct); and consequently every successfully reassembled message has
length at most the maximum ADU length, so the caller-supplied buffer is
never written past that bound (third conjunct). -/
theorem C2_max_adu_guard (metaLen : Nat → MsgType → Nat)
    (dataLen : List Nat → MsgType → Nat) (ctx : modbus_t)
    (msg_type : MsgType) :
    (∀ (msg : List Nat) (step : _step_t), step ≠ _step_t.data →
      (step = _step_t.function →
        metaLen (msg.getD ctx.backend.header_length 0) msg_type = 0) →
      ctx.backend.max_adu_length < msg.length + dataLen msg msg_type →
      stepSwitch metaLen dataLen ctx msg_type msg step
        = Except.error Errno.EMBBADDATA) ∧
    (∀ (rest : List Event) (msg chunk : List Nat) (ltr : Nat)
      (step : _step_t) (effects : List SideEffect) (e : Errno),
      chunk ≠ [] → (chunk.take ltr).length = ltr → ltr ≠ 0 →
      stepSwitch metaLen dataLen ctx msg_type (msg ++ chunk.take ltr) step
        = Except.error e →
      receiveLoop metaLen dataLen ctx msg_type
          (Event.recvOk chunk :: rest) msg ltr step effects
        = ⟨RcvResult.err e, effects, rest⟩) ∧
    (∀ (events rem : List Event) (m : List Nat) (eff2 : List SideEffect),
      _modbus_tcp_receive_msg metaLen dataLen ctx msg_type events
        = ⟨RcvResult.ok m, eff2, rem⟩ →
      m.length ≤ ctx.backend.max_adu_length) := by
  refine ⟨?_, ?_, ?_⟩
  · intro msg step hnd hf hgt
    cases step with
    | function =>
      unfold stepSwitch
      rw [if_neg (not_not_intro (hf rfl))]
      unfold metaStepCase
      rw [if_pos hgt]
    | meta =>
      unfold stepSwitch
      unfold metaStepCase
      rw [if_pos hgt]
    | data =>
      exact absurd rfl hnd
  · intro rest msg chunk ltr step effects e hc htake hltr hss
    rw [receiveLoop]
    rw [if_neg hltr, if_neg hc]
    have hl2 : ltr - (chunk.take ltr).length = 0 := by
      rw [htake]
      omega
    rw [if_pos hl2, hss]
  · intro events rem m eff2 hrun
    refine receiveLoop_ok_le metaLen dataLen ctx msg_type events []
      (ctx.backend.header_length + 1) _step_t.function [] m eff2 rem
      ?_ ?_ hrun
    · intro hz
      exact absurd hz (Nat.succ_ne_zero ctx.backend.header_length)
    · intro hd
      exact absurd hd (by decide)

/-- C2 witness: with collaborator functions declaring no metadata and a
remaining data length of 300 bytes, a TCP context (maximum ADU length
260) that has consumed the 8 header-and-function bytes fails with
EMBBADDATA and consumes no further event. -/
theorem C2_max_adu_guard_witness :
    _modbus_tcp_receive_msg (fun _ _ => 0) (fun _ _ => 300)
        ⟨3, 255, false, false, _modbus_tcp_backend, 0⟩ MsgType.confirmation
        [Event.recvOk [0, 0, 0, 0, 0, 0, 0, 3]]
      = ⟨RcvResult.err Errno.EMBBADDATA, [], []⟩ := by
  have h := C2_max_adu_guard (fun _ _ => 0) (fun _ _ => 300)
    ⟨3, 255, false, false, _modbus_tcp_backend, 0⟩ MsgType.confirmation
  have h1 := h.1 [0, 0, 0, 0, 0, 0, 0, 3] _step_t.function
    (by decide) (fun _ => rfl) (by decide)
  have h2 := h.2.1 [] [] [0, 0, 0, 0, 0, 0, 0, 3] 8 _step_t.function []
    Errno.EMBBADDATA (by decide) (by decide) (by decide) h1
  exact h2

/-- C3: with link recovery enabled, a readiness-wait failure classified
as timeout makes the receive sleep for the response timeout, flush, and
re-raise ETIMEDOUT; a readiness-wait failure classified as bad
descriptor makes it close then reconnect and re-raise EBADF; a read
failure classified as connection-reset, connection-refused or bad
descriptor makes it close then reconnect and re-raise the original
errno; in every such case the call returns failure. -/
theorem C3_link_recovery (metaLen : Nat → MsgType → Nat)
    (dataLen : List Nat → MsgType → Nat) (ctx : modbus_t)
    (msg_type : MsgType) (msg : List Nat) (length_to_read : Nat)
    (step : _step_t) (effects : List SideEffect) (rest : List Event)
    (hrec : ctx.error_recovery_link = true) (hltr : length_to_read ≠ 0) :
    (receiveLoop metaLen dataLen ctx msg_type
        (Event.selectErr Errno.ETIMEDOUT :: rest) msg length_to_read step effects
      = ⟨RcvResult.err Errno.ETIMEDOUT,
          effects ++ [SideEffect.sleepResponseTimeout, SideEffect.flush], rest⟩) ∧
    (receiveLoop metaLen dataLen ctx msg_type
        (Event.selectErr Errno.EBADF :: rest) msg length_to_read step effects
      = ⟨RcvResult.err Errno.EBADF,
          effects ++ [SideEffect.close, SideEffect.connect], rest⟩) ∧
    (∀ e, e = Errno.ECONNRESET ∨ e = Errno.ECONNREFUSED ∨ e = Errno.EBADF →
      receiveLoop metaLen dataLen ctx msg_type
          (Event.recvErr e :: rest) msg length_to_read step effects
        = ⟨RcvResult.err e,
            effects ++ [SideEffect.close, SideEffect.connect], rest⟩) := by
  refine ⟨?_, ?_, ?_⟩
  · simp only [receiveLoop]
    simp [hltr, recoverySelect, hrec]
  · simp only [receiveLoop]
    simp [hltr, recoverySelect, hrec]
  · intro e he
    simp only [receiveLoop]
    simp [hltr, recoveryRead, hrec, he]

/-- C3 witness: the three recovery behaviours evaluated at a concrete
recovery-enabled context and a concrete loop state. -/
theorem C3_link_recovery_witness :
    (receiveLoop (fun _ _ => 0) (fun _ _ => 0)
        ⟨3, 255, true, false, _modbus_tcp_backend, 0⟩ MsgType.confirmation
        [Event.selectErr Errno.ETIMEDOUT] [] 8 _step_t.function []
      = ⟨RcvResult.err Errno.ETIMEDOUT,
          [SideEffect.sleepResponseTimeout, SideEffect.flush], []⟩) ∧
    (receiveLoop (fun _ _ => 0) (fun _ _ => 0)
        ⟨3, 255, true, false, _modbus_tcp_backend, 0⟩ MsgType.confirmation
        [Event.selectErr Errno.EBADF] [] 8 _step_t.function []
      = ⟨RcvResult.err Errno.EBADF,
          [SideEffect.close, SideEffect.connect], []⟩) ∧
    (receiveLoop (fun _ _ => 0) (fun _ _ => 0)
        ⟨3, 255, true, false, _modbus_tcp_backend, 0⟩ MsgType.confirmation
        [Event.recvErr Errno.ECONNRESET] [] 8 _step_t.function []
      = ⟨RcvResult.err Errno.ECONNRESET,
          [SideEffect.close, SideEffect.connect], []⟩) := by
  have h := C3_link_recovery (fun _ _ => 0) (fun _ _ => 0)
    ⟨3, 255, true, false, _modbus_tcp_backend, 0⟩ MsgType.confirmation
    [] 8 _step_t.function [] [] rfl (by decide)
  exact ⟨h.1, h.2.1, h.2.2 Errno.ECONNRESET (Or.inl rfl)⟩

/-- C7 counterexample: the claim says a zero-byte raw receive is
reported with a peer-closed error kind distinct from connection-reset;
on the code, a zero-byte read (the empty recv chunk) makes the receive
fail with errno ECONNRESET itself, the connection-reset code
(lines 271-274 set errno = ECONNRESET). -/
theorem C7_counterexample :
    _modbus_tcp_receive_msg (fun _ _ => 0) (fun _ _ => 0)
        ⟨3, 255, false, false, _modbus_tcp_backend, 0⟩ MsgType.confirmation
        [Event.recvOk []]
      = ⟨RcvResult.err Errno.ECONNRESET, [], []⟩ := by
  rfl

/-- C7 (amended): a raw receive that returns zero bytes causes the
receive call to fail with errno ECONNRESET — the connection-reset code,
not a kind distinct from it — and with link recovery enabled this
failure is classified like any other connection-reset read failure. -/
theorem C7_zero_byte_read (metaLen : Nat → MsgType → Nat)
    (dataLen : List Nat → MsgType → Nat) (ctx : modbus_t)
    (msg_type : MsgType) (msg : List Nat) (length_to_read : Nat)
    (step : _step_t) (effects : List SideEffect) (rest : List Event)
    (hltr : length_to_read ≠ 0) :
    receiveLoop metaLen dataLen ctx msg_type
        (Event.recvOk [] :: rest) msg length_to_read step effects
      = ⟨RcvResult.err Errno.ECONNRESET,
          effects ++ recoveryRead ctx Errno.ECONNRESET, rest⟩ := by
  simp only [receiveLoop]
  simp [hltr]

/-- C7 witness: the amended statement evaluated at a concrete loop
state with link recovery enabled. -/
theorem C7_zero_byte_read_witness :
    receiveLoop (fun _ _ => 0) (fun _ _ => 0)
        ⟨3, 255, true, false, _modbus_tcp_backend, 0⟩ MsgType.confirmation
        [Event.recvOk []] [] 8 _step_t.function []
      = ⟨RcvResult.err Errno.ECONNRESET,
          [SideEffect.close, SideEffect.connect], []⟩ := by
  have h := C7_zero_byte_read (fun _ _ => 0) (fun _ _ => 0)
    ⟨3, 255, true, false, _modbus_tcp_backend, 0⟩ MsgType.confirmation
    [] 8 _step_t.function [] [] (by decide)
  simpa [recoveryRead] using h

/-- C10: the public server receive entry point rejects descriptor 0
with EINVAL before any I/O (no event consumed, no side effect), and for
any nonzero descriptor stores it into the context and runs message
reassembly as an indication wait on that context. -/
theorem C10_receive_socket_check (metaLen : Nat → MsgType → Nat)
    (dataLen : List Nat → MsgType → Nat) (ctx : modbus_t) (s : Int)
    (events : List Event) :
    (s = 0 → modbus_tcp_receive metaLen dataLen ctx s events
        = (ctx, ⟨RcvResult.err Errno.EINVAL, [], events⟩)) ∧
    (s ≠ 0 →
      (modbus_tcp_receive metaLen dataLen ctx s events).1 = { ctx with s := s } ∧
      (modbus_tcp_receive metaLen dataLen ctx s events).2
        = _modbus_tcp_receive_msg metaLen dataLen { ctx with s := s }
            MsgType.indication events) := by
  constructor
  · intro h
    simp [modbus_tcp_receive, h]
  · intro h
    simp [modbus_tcp_receive, h]

/-- C10 witness: descriptor 0 is rejected with EINVAL without touching
the event stream; descriptor 5 is stored and reassembly runs. -/
theorem C10_receive_socket_check_witness :
    (modbus_tcp_receive (fun _ _ => 0) (fun _ _ => 0)
        ⟨-1, 255, false, false, _modbus_tcp_backend, 0⟩ 0
        [Event.recvOk [1, 2]]
      = (⟨-1, 255, false, false, _modbus_tcp_backend, 0⟩,
          ⟨RcvResult.err Errno.EINVAL, [], [Event.recvOk [1, 2]]⟩)) ∧
    (modbus_tcp_receive (fun _ _ => 0) (fun _ _ => 0)
        ⟨-1, 255, false, false, _modbus_tcp_backend, 0⟩ 5
        [Event.recvOk [1, 2]]).1
      = ⟨5, 255, false, false, _modbus_tcp_backend, 0⟩ := by
  have h0 := (C10_receive_socket_check (fun _ _ => 0) (fun _ _ => 0)
    ⟨-1, 255, false, false, _modbus_tcp_backend, 0⟩ 0
    [Event.recvOk [1, 2]]).1 rfl
  have h5 := (C10_receive_socket_check (fun _ _ => 0) (fun _ _ => 0)
    ⟨-1, 255, false, false, _modbus_tcp_backend, 0⟩ 5
    [Event.recvOk [1, 2]]).2 (by decide)
  exact ⟨h0, h5.1⟩

/-- C6: set-slave accepts every integer in the interval 0..247 and the
sentinel 0xFF, storing the value, and rejects every other integer with
EINVAL. -/
theorem C6_set_slave (ctx : modbus_t) (slave : Int) :
    ((0 ≤ slave ∧ slave ≤ 247) ∨ slave = 0xFF →
        _modbus_set_slave ctx slave = Except.ok { ctx with slave := slave }) ∧
    (¬ ((0 ≤ slave ∧ slave ≤ 247) ∨ slave = 0xFF) →
        _modbus_set_slave ctx slave = Except.error Errno.EINVAL) := by
  unfold _modbus_set_slave
  constructor
  · intro h
    rcases h with h | h
    · simp [h]
    · have hnot : ¬ (0 ≤ slave ∧ slave ≤ 247) := by omega
      simp [h, hnot]
  · intro h
    push_neg at h
    obtain ⟨h1, h2⟩ := h
    have hn : ¬ (0 ≤ slave ∧ slave ≤ 247) := by
      intro hc
      have := h1 hc.1
      omega
    simp [hn, h2]

/-- C6 witness: set-slave evaluated at concrete accepted and rejected
slave values. -/
theorem C6_set_slave_witness :
    _modbus_set_slave ⟨-1, -1, false, false, _modbus_tcp_backend, 0⟩ 17 =
        Except.ok ⟨-1, 17, false, false, _modbus_tcp_backend, 0⟩ ∧
    _modbus_set_slave ⟨-1, -1, false, false, _modbus_tcp_backend, 0⟩ 0xFF =
        Except.ok ⟨-1, 0xFF, false, false, _modbus_tcp_backend, 0⟩ ∧
    _modbus_set_slave ⟨-1, -1, false, false, _modbus_tcp_backend, 0⟩ 248 =
        Except.error Errno.EINVAL ∧
    _modbus_set_slave ⟨-1, -1, false, false, _modbus_tcp_backend, 0⟩ (-2) =
        Except.error Errno.EINVAL := by
  refine ⟨?_, ?_, ?_, ?_⟩
  · exact (C6_set_slave ⟨-1, -1, false, false, _modbus_tcp_backend, 0⟩ 17).1
      (Or.inl (by decide))
  · exact (C6_set_slave ⟨-1, -1, false, false, _modbus_tcp_backend, 0⟩ 0xFF).1
      (Or.inr rfl)
  · exact (C6_set_slave ⟨-1, -1, false, false, _modbus_tcp_backend, 0⟩ 248).2
      (by decide)
  · exact (C6_set_slave ⟨-1, -1, false, false, _modbus_tcp_backend, 0⟩ (-2)).2
      (by decide)

/-- Reading a cell other than the one written leaves the heap lookup
unchanged. -/
theorem list_getD_set_ne {α : Type} :
    ∀ (l : List α) (p q : Nat) (a d : α), q ≠ p →
      (l.set p a).getD q d = l.getD q d := by
  intro l
  induction l with
  | nil =>
    intro p q a d hne
    rfl
  | cons x xs ih =>
    intro p q a d hne
    cases p with
    | zero =>
      cases q with
      | zero => exact absurd rfl hne
      | succ q2 => rfl
    | succ p2 =>
      cases q with
      | zero => rfl
      | succ q2 =>
        have hne2 : q2 ≠ p2 := by
          intro hh
          exact hne (by rw [hh])
        simpa using ih p2 q2 a d hne2

/-- A lookup inside the valid part of the heap does not depend on the
default value. -/
theorem list_getD_irrel {α : Type} (l : List α) (p : Nat) (d1 d2 : α)
    (hp : p < l.length) : l.getD p d1 = l.getD p d2 := by
  rw [List.getD_eq_getElem l d1 hp, List.getD_eq_getElem l d2 hp]

/-- Looking up the freshly appended cell returns the appended value. -/
theorem list_getD_append_self {α : Type} (l : List α) (b : α) (d : α) :
    (l ++ [b]).getD l.length d = b := by
  rw [List.getD_append_right l [b] d l.length le_rfl]
  simp

/-- C9: cloning duplicates every context field by value (socket handle,
slave id, recovery flag, trace flag, backend), gives the clone a
distinct transport-parameter pointer whose block content equals the
original block, leaves the original block in place, and afterwards
overwriting the block behind either pointer leaves the block behind the
other pointer unchanged. -/
theorem C9_clone_independent (h : List modbus_tcp_t) (ctx : modbus_t)
    (d : modbus_tcp_t) (hp : ctx.backend_data < h.length) :
    ((modbus_clone_tcp h ctx).2.s = ctx.s ∧
     (modbus_clone_tcp h ctx).2.slave = ctx.slave ∧
     (modbus_clone_tcp h ctx).2.error_recovery_link = ctx.error_recovery_link ∧
     (modbus_clone_tcp h ctx).2.traceCallback = ctx.traceCallback ∧
     (modbus_clone_tcp h ctx).2.backend = ctx.backend) ∧
    (modbus_clone_tcp h ctx).2.backend_data ≠ ctx.backend_data ∧
    ((modbus_clone_tcp h ctx).1.getD (modbus_clone_tcp h ctx).2.backend_data d
      = h.getD ctx.backend_data d) ∧
    ((modbus_clone_tcp h ctx).1.getD ctx.backend_data d
      = h.getD ctx.backend_data d) ∧
    (∀ blk : modbus_tcp_t,
      (((modbus_clone_tcp h ctx).1.set (modbus_clone_tcp h ctx).2.backend_data
          blk).getD ctx.backend_data d)
        = (modbus_clone_tcp h ctx).1.getD ctx.backend_data d) ∧
    (∀ blk : modbus_tcp_t,
      (((modbus_clone_tcp h ctx).1.set ctx.backend_data blk).getD
          (modbus_clone_tcp h ctx).2.backend_data d)
        = (modbus_clone_tcp h ctx).1.getD
            (modbus_clone_tcp h ctx).2.backend_data d) := by
  refine ⟨⟨rfl, rfl, rfl, rfl, rfl⟩, ?_, ?_, ?_, ?_, ?_⟩
  · show h.length ≠ ctx.backend_data
    omega
  · show (h ++ [h.getD ctx.backend_data ⟨0, 0, []⟩]).getD h.length d
      = h.getD ctx.backend_data d
    rw [list_getD_append_self]
    exact list_getD_irrel h ctx.backend_data _ d hp
  · show (h ++ [h.getD ctx.backend_data ⟨0, 0, []⟩]).getD ctx.backend_data d
      = h.getD ctx.backend_data d
    exact List.getD_append h _ d ctx.backend_data hp
  · intro blk
    exact list_getD_set_ne _ h.length ctx.backend_data blk d (by omega)
  · intro blk
    exact list_getD_set_ne _ ctx.backend_data h.length blk d (by omega)

/-- C9 witness: the clone theorem applied to a concrete one-block heap
and context. -/
theorem C9_clone_independent_witness :
    ((modbus_clone_tcp [⟨7, 502, ['a']⟩]
        ⟨4, 17, false, false, _modbus_tcp_backend, 0⟩).2.s = 4) ∧
    ((modbus_clone_tcp [⟨7, 502, ['a']⟩]
        ⟨4, 17, false, false, _modbus_tcp_backend, 0⟩).2.backend_data ≠ 0) ∧
    ((modbus_clone_tcp [⟨7, 502, ['a']⟩]
        ⟨4, 17, false, false, _modbus_tcp_backend, 0⟩).1.getD
          (modbus_clone_tcp [⟨7, 502, ['a']⟩]
            ⟨4, 17, false, false, _modbus_tcp_backend, 0⟩).2.backend_data
          ⟨0, 0, []⟩
      = [(⟨7, 502, ['a']⟩ : modbus_tcp_t)].getD 0 ⟨0, 0, []⟩) ∧
    (((modbus_clone_tcp [⟨7, 502, ['a']⟩]
        ⟨4, 17, false, false, _modbus_tcp_backend, 0⟩).1.set
          (modbus_clone_tcp [⟨7, 502, ['a']⟩]
            ⟨4, 17, false, false, _modbus_tcp_backend, 0⟩).2.backend_data
          ⟨999, 0, []⟩).getD 0 ⟨0, 0, []⟩
      = (modbus_clone_tcp [⟨7, 502, ['a']⟩]
          ⟨4, 17, false, false, _modbus_tcp_backend, 0⟩).1.getD 0 ⟨0, 0, []⟩) := by
  have h := C9_clone_independent [⟨7, 502, ['a']⟩]
    ⟨4, 17, false, false, _modbus_tcp_backend, 0⟩ ⟨0, 0, []⟩ (by decide)
  exact ⟨h.1.1, h.2.1, h.2.2.1, h.2.2.2.2.1 ⟨999, 0, []⟩⟩

/-- C1 counterexample: the claim says the transaction ids written by
successive request-header builds form the sequence 0,1,2,…; on the
code, a freshly constructed transport-parameter instance has counter 0
(modbus_new_tcp) and the very first build increments before writing, so
the first header carries transaction id 1, not 0. -/
theorem C1_counterexample :
    ((modbus_new_tcp ['1', '2', '7', '.', '0', '.', '0', '.', '1'] 502).map
        (fun pr => pr.2.t_id) = Except.ok 0) ∧
    (((_modbus_tcp_build_request_basis
          ⟨0, 502, ['1', '2', '7', '.', '0', '.', '0', '.', '1']⟩ 0xFF 3 0 0
          (fun _ => 0)).2.1 0) * 256 +
        ((_modbus_tcp_build_request_basis
          ⟨0, 502, ['1', '2', '7', '.', '0', '.', '0', '.', '1']⟩ 0xFF 3 0 0
          (fun _ => 0)).2.1 1) = 1) ∧
    (1 : Nat) ≠ 0 := by
  refine ⟨rfl, rfl, by decide⟩

/-- C1 (amended): each build writes nextTid of the stored counter
big-endian into the first two header bytes and stores it back, so from
a fresh instance the k-th build writes k mod 65536 and the id sequence
is 1,2,…,65535,0,1,… (not 0,1,2,…); and builds performed through a
clone's transport-parameter block leave the original instance's block
— and hence its sequence — unchanged. -/
theorem C1_tid_sequence (b : modbus_tcp_t) (slave : Int)
    (function addr nb : Nat) (req : Nat → Nat) (ht : b.t_id < 65536) :
    ((((_modbus_tcp_build_request_basis b slave function addr nb req).2.1 0)
          * 256 +
        ((_modbus_tcp_build_request_basis b slave function addr nb req).2.1 1)
        = nextTid b.t_id) ∧
      ((_modbus_tcp_build_request_basis b slave function addr nb req).1.t_id
        = nextTid b.t_id) ∧
      ((_modbus_tcp_build_request_basis b slave function addr nb req).2.2
        = 12)) ∧
    (∀ k : Nat, nextTid^[k] 0 = k % 65536) ∧
    (∀ (h : List modbus_tcp_t) (ctx : modbus_t) (d : modbus_tcp_t),
      ctx.backend_data < h.length →
      ((buildRequestOnHeap (modbus_clone_tcp h ctx).1
          (modbus_clone_tcp h ctx).2.backend_data slave function addr nb
          req).1.getD ctx.backend_data d
        = h.getD ctx.backend_data d)) := by
  refine ⟨⟨?_, rfl, rfl⟩, ?_, ?_⟩
  · have hb : nextTid b.t_id < 65536 := by
      unfold nextTid
      split <;> omega
    show (Function.update (Function.update (Function.update (Function.update
        (Function.update (Function.update (Function.update (Function.update
        (Function.update (Function.update req
        0 (nextTid b.t_id / 256 % 256)) 1 (nextTid b.t_id % 256)) 2 0) 3 0)
        6 (Int.emod slave 256).toNat) 7 (function % 256)) 8 (addr / 256 % 256))
        9 (addr % 256)) 10 (nb / 256 % 256)) 11 (nb % 256)) 0 * 256 +
      (Function.update (Function.update (Function.update (Function.update
        (Function.update (Function.update (Function.update (Function.update
        (Function.update (Function.update req
        0 (nextTid b.t_id / 256 % 256)) 1 (nextTid b.t_id % 256)) 2 0) 3 0)
        6 (Int.emod slave 256).toNat) 7 (function % 256)) 8 (addr / 256 % 256))
        9 (addr % 256)) 10 (nb / 256 % 256)) 11 (nb % 256)) 1
      = nextTid b.t_id
    simp only [Function.update_apply]
    norm_num
    omega
  · intro k
    induction k with
    | zero => rfl
    | succ k2 ih =>
      rw [Function.iterate_succ_apply', ih]
      unfold nextTid
      split <;> omega
  · intro h ctx d hlt
    dsimp only [buildRequestOnHeap, modbus_clone_tcp]
    rw [list_getD_set_ne _ h.length ctx.backend_data _ d (by omega)]
    exact List.getD_append h _ d ctx.backend_data hlt

/-- C1 witness: the amended theorem applied to a fresh block (counter
zero): the first build writes id 1; after 65536 builds the counter has
wrapped back to 0; a build through a clone leaves the original block
unchanged. -/
theorem C1_tid_sequence_witness :
    (((_modbus_tcp_build_request_basis ⟨0, 502, []⟩ 0xFF 3 0 0
        (fun _ => 0)).2.1 0) * 256 +
      ((_modbus_tcp_build_request_basis ⟨0, 502, []⟩ 0xFF 3 0 0
        (fun _ => 0)).2.1 1) = nextTid 0) ∧
    nextTid^[65536] 0 = 65536 % 65536 ∧
    ((buildRequestOnHeap
        (modbus_clone_tcp [⟨0, 502, []⟩]
          ⟨-1, 255, false, false, _modbus_tcp_backend, 0⟩).1
        (modbus_clone_tcp [⟨0, 502, []⟩]
          ⟨-1, 255, false, false, _modbus_tcp_backend, 0⟩).2.backend_data
        0xFF 3 0 0 (fun _ => 0)).1.getD 0 ⟨9, 9, []⟩
      = [(⟨0, 502, []⟩ : modbus_tcp_t)].getD 0 ⟨9, 9, []⟩) := by
  have h := C1_tid_sequence ⟨0, 502, []⟩ 0xFF 3 0 0 (fun _ => 0) (by decide)
  exact ⟨h.1.1, h.2.1 65536,
    h.2.2 [⟨0, 502, []⟩] ⟨-1, 255, false, false, _modbus_tcp_backend, 0⟩
      ⟨9, 9, []⟩ (by decide)⟩

/-- C8: both constructors fail with EINVAL, returning no context,
exactly when a supplied string is empty or its length meets or exceeds
the bound (16 bytes for the IPv4 address; the node and service length
constants for the name-service transport); otherwise they return a
context whose transport-parameter block stores the strings, the port or
service, and a transaction-id counter initialised to zero. -/
theorem C8_constructors_validate :
    (∀ (ip : List Char) (port : Int),
      (modbus_new_tcp ip port = Except.error Errno.EINVAL ↔
        (ip.length = 0 ∨ 16 ≤ ip.length)) ∧
      (¬ (ip.length = 0 ∨ 16 ≤ ip.length) →
        modbus_new_tcp ip port
          = Except.ok ({ _modbus_init_common with
                slave := 0xFF, backend := _modbus_tcp_backend },
              ⟨0, port, ip⟩))) ∧
    (∀ (nodeLen serviceLen : Nat) (node service : List Char),
      (modbus_new_tcp_pi nodeLen serviceLen node service
          = Except.error Errno.EINVAL ↔
        (node.length = 0 ∨ nodeLen ≤ node.length ∨
          service.length = 0 ∨ serviceLen ≤ service.length)) ∧
      (¬ (node.length = 0 ∨ nodeLen ≤ node.length ∨
          service.length = 0 ∨ serviceLen ≤ service.length) →
        modbus_new_tcp_pi nodeLen serviceLen node service
          = Except.ok ({ _modbus_init_common with
                slave := 0xFF, backend := _modbus_tcp_pi_backend },
              ⟨0, node, service⟩))) := by
  constructor
  · intro ip port
    constructor
    · constructor
      · intro h
        by_cases h1 : ip.length = 0
        · exact Or.inl h1
        · by_cases h2 : 16 ≤ ip.length
          · exact Or.inr h2
          · exfalso
            unfold modbus_new_tcp at h
            rw [if_neg h1, if_neg h2] at h
            exact absurd h (by simp)
      · intro h
        unfold modbus_new_tcp
        rcases h with h | h
        · rw [if_pos h]
        · by_cases h1 : ip.length = 0
          · rw [if_pos h1]
          · rw [if_neg h1, if_pos h]
    · intro h
      push_neg at h
      unfold modbus_new_tcp
      rw [if_neg h.1, if_neg (show ¬ 16 ≤ ip.length by omega)]
  · intro nodeLen serviceLen node service
    constructor
    · constructor
      · intro h
        by_cases h1 : node.length = 0
        · exact Or.inl h1
        · by_cases h2 : nodeLen ≤ node.length
          · exact Or.inr (Or.inl h2)
          · by_cases h3 : service.length = 0
            · exact Or.inr (Or.inr (Or.inl h3))
            · by_cases h4 : serviceLen ≤ service.length
              · exact Or.inr (Or.inr (Or.inr h4))
              · exfalso
                unfold modbus_new_tcp_pi at h
                rw [if_neg h1, if_neg h2, if_neg h3, if_neg h4] at h
                exact absurd h (by simp)
      · intro h
        unfold modbus_new_tcp_pi
        by_cases h1 : node.length = 0
        · rw [if_pos h1]
        · rw [if_neg h1]
          by_cases h2 : nodeLen ≤ node.length
          · rw [if_pos h2]
          · rw [if_neg h2]
            by_cases h3 : service.length = 0
            · rw [if_pos h3]
            · rw [if_neg h3]
              rcases h with h | h | h | h
              · exact absurd h h1
              · exact absurd h h2
              · exact absurd h h3
              · rw [if_pos h]
    · intro h
      push_neg at h
      unfold modbus_new_tcp_pi
      rw [if_neg h.1, if_neg (show ¬ nodeLen ≤ node.length by omega),
        if_neg h.2.2.1, if_neg (show ¬ serviceLen ≤ service.length by omega)]

/-- C8 witness: a valid address and a valid node-service pair are
accepted with a zero transaction id; an empty address, an over-long
address, and an over-long service are rejected with EINVAL. -/
theorem C8_constructors_validate_witness :
    (modbus_new_tcp ['1', '2', '7', '.', '0', '.', '0', '.', '1'] 502
      = Except.ok ({ _modbus_init_common with
            slave := 0xFF, backend := _modbus_tcp_backend },
          ⟨0, 502, ['1', '2', '7', '.', '0', '.', '0', '.', '1']⟩)) ∧
    (modbus_new_tcp [] 502 = Except.error Errno.EINVAL) ∧
    (modbus_new_tcp ['1', '2', '3', '4', '5', '6', '7', '8', '9', '0',
        '1', '2', '3', '4', '5', '6'] 502 = Except.error Errno.EINVAL) ∧
    (modbus_new_tcp_pi 1025 32 ['h', 'o', 's', 't'] ['5', '0', '2']
      = Except.ok ({ _modbus_init_common with
            slave := 0xFF, backend := _modbus_tcp_pi_backend },
          ⟨0, ['h', 'o', 's', 't'], ['5', '0', '2']⟩)) ∧
    (modbus_new_tcp_pi 1025 3 ['h', 'o', 's', 't'] ['5', '0', '2']
      = Except.error Errno.EINVAL) := by
  refine ⟨?_, ?_, ?_, ?_, ?_⟩
  · exact (C8_constructors_validate.1
      ['1', '2', '7', '.', '0', '.', '0', '.', '1'] 502).2 (by decide)
  · exact (C8_constructors_validate.1 [] 502).1.mpr (Or.inl rfl)
  · exact (C8_constructors_validate.1 ['1', '2', '3', '4', '5', '6', '7',
      '8', '9', '0', '1', '2', '3', '4', '5', '6'] 502).1.mpr
      (Or.inr (by decide))
  · exact (C8_constructors_validate.2 1025 32 ['h', 'o', 's', 't']
      ['5', '0', '2']).2 (by decide)
  · exact (C8_constructors_validate.2 1025 3 ['h', 'o', 's', 't']
      ['5', '0', '2']).1.mpr (Or.inr (Or.inr (Or.inr (by decide))))

/-- C4 witness: two buffers agreeing on the transaction-id bytes pass
the pre-check even though the payloads differ; flipping one
transaction-id byte makes it fail with EMBBADDATA. -/
theorem C4_pre_check_confirmation_witness :
    (_modbus_tcp_pre_check_confirmation
        (fun i => if i = 0 then 1 else if i = 1 then 2 else 50)
        (fun i => if i = 0 then 1 else if i = 1 then 2 else 99) 9
      = Except.ok ()) ∧
    (_modbus_tcp_pre_check_confirmation
        (fun i => if i = 0 then 1 else 2)
        (fun i => if i = 0 then 3 else 2) 9
      = Except.error Errno.EMBBADDATA) := by
  constructor
  · exact (C4_pre_check_confirmation
      (fun i => if i = 0 then 1 else if i = 1 then 2 else 50)
      (fun i => if i = 0 then 1 else if i = 1 then 2 else 99) 9).2.mpr
      (by norm_num)
  · exact (C4_pre_check_confirmation
      (fun i => if i = 0 then 1 else 2)
      (fun i => if i = 0 then 3 else 2) 9).1.mpr
      (Or.inl (by norm_num))
